import Mathlib

/-!
Shallow embedding of the CyberSecurity-attack-detector NIDS pipeline core
(`backend/nids/schemas.py`, `backend/backend/src/nids/features.py`,
`backend/nids/models.py`, `backend/nids/alerts.py`,
`backend/backend/src/nids/capture.py`) together with proofs about the
frozen specification claims.

Modelling conventions:
* Python floats are modelled as rationals (`ℚ`); machine rounding is not
  relevant to any of the properties treated here.
* Python dicts (which preserve insertion order) are modelled as
  association lists with an update-or-append operation `dictSet` and a
  first-match lookup `dictGet`.
* Ambient runtime services that the code calls (`hash` on tuples,
  `math.sqrt`/`numpy` square roots, `math.log2`, float `format`) are
  collected in a `Runtime` parameter: they are fixed but arbitrary
  functions, exactly as a single Python process sees them.
* Wall-clock reads (`time.time()`) are passed in explicitly as a `now`
  argument to the operations that perform them.
-/

namespace NIDS

/-- First-match lookup in an association list (Python `dict[k]` / `k in dict`). -/
def dictGet {α β : Type} [DecidableEq α] (k : α) : List (α × β) → Option β
  | [] => none
  | kv :: rest => if kv.1 = k then some kv.2 else dictGet k rest

/-- Update-or-append for an association list (Python `dict[k] = v`, which keeps
the position of an existing key and appends a fresh key at the end). -/
def dictSet {α β : Type} [DecidableEq α] (k : α) (v : β) : List (α × β) → List (α × β)
  | [] => [(k, v)]
  | kv :: rest => if kv.1 = k then (kv.1, v) :: rest else kv :: dictSet k v rest

/-- Python's negative-index slice `xs[-k:]`: the last `k` elements, except that
`xs[-0:]` is the whole list. -/
def pySliceLast {α : Type} (k : Nat) (xs : List α) : List α :=
  if k = 0 then xs else xs.drop (xs.length - k)

end NIDS

namespace NIDS

/-! ## Data model (`backend/nids/schemas.py`) -/

/-- `FlowKey` (schemas.py): the 5-tuple flow identifier, value-equal. -/
structure FlowKey where
  src_ip : String
  dst_ip : String
  src_port : Nat
  dst_port : Nat
  protocol : String
deriving DecidableEq

/-- `PacketInfo` (schemas.py): raw packet information from the capture layer.
Payload bytes are modelled as a list of byte values. -/
structure PacketInfo where
  timestamp : ℚ
  src_ip : String
  dst_ip : String
  src_port : Nat
  dst_port : Nat
  protocol : String
  packet_size : Nat
  payload_size : Nat
  payload : Option (List Nat) := none
  tcp_flags : Option Nat := none
  tcp_window : Option Nat := none
  tcp_seq : Option Nat := none
  tcp_ack : Option Nat := none
  ttl : Option Nat := none
  ip_flags : Option Nat := none
deriving DecidableEq

/-- `FlowState` (schemas.py): per-flow session state. -/
structure FlowState where
  flow_key : FlowKey
  start_time : ℚ
  last_seen : ℚ
  src_packets : Nat := 0
  dst_packets : Nat := 0
  src_bytes : Nat := 0
  dst_bytes : Nat := 0
  syn_count : Nat := 0
  fin_count : Nat := 0
  rst_count : Nat := 0
  inter_arrival_times : List ℚ := []
  packet_sizes : List Nat := []
  recent_packets : List PacketInfo := []
deriving DecidableEq

/-- `FeatureVector` (schemas.py): extracted features for model input. -/
structure FeatureVector where
  timestamp : ℚ
  flow_key : FlowKey
  packet_size : ℚ
  direction : Nat
  inter_arrival_delta : ℚ
  tcp_flags_bitmap : Nat
  ttl : ℚ
  total_bytes : ℚ
  total_packets : ℚ
  bytes_ratio : ℚ
  packets_per_second : ℚ
  syn_fin_ratio : ℚ
  size_mean : ℚ
  size_std : ℚ
  iat_mean : ℚ
  iat_std : ℚ
  burstiness : ℚ
  payload_entropy : ℚ
  printable_ratio : ℚ
  dns_qname_length : Option ℚ := none
  tls_sni_present : Option Bool := none
deriving DecidableEq

/-- `ModelPrediction` (schemas.py). -/
structure ModelPrediction where
  timestamp : ℚ
  flow_key : FlowKey
  is_attack : Bool
  attack_probability : ℚ
  attack_class : Option String := none
  class_probabilities : Option (List (String × ℚ)) := none
  model_version : String
  threshold_used : ℚ
  processing_time_ms : ℚ
deriving DecidableEq

/-- `Alert` (schemas.py). -/
structure Alert where
  timestamp : ℚ
  alert_id : String
  severity : String
  attack_type : String
  confidence : ℚ
  source_ip : String
  destination_ip : String
  flow_key : FlowKey
  prediction : ModelPrediction
  description : String
  recommended_action : Option String := none
deriving DecidableEq

/-- Ambient runtime services used by the Python code, fixed for one process:
`hash` on a 4-tuple of the flow endpoints, a square-root routine (numpy's
standard deviation), `math.log2`, and float-to-decimal-string formatting. -/
structure Runtime where
  hashFn : String × String × Nat × Nat → ℤ
  sqrtFn : ℚ → ℚ
  log2Fn : ℚ → ℚ
  fmtFn : ℚ → String

/-- A trivial runtime instantiation used for concrete witnesses. -/
def runtime0 : Runtime :=
  ⟨fun _ => 0, fun _ => 0, fun _ => 0, fun _ => ""⟩

/-! ## Feature extraction (`backend/backend/src/nids/features.py`) -/

/-- `FeatureExtractor.__init__` configuration plus its mutable state
(`self.flows`, `self.last_cleanup`). -/
structure Extractor where
  window_size : Nat
  window_overlap : ℚ
  session_timeout : ℚ
  max_payload_bytes : Nat
  flows : List (FlowKey × FlowState)
  last_cleanup : ℚ

/-- `FeatureExtractor._create_flow_key`. -/
def createFlowKey (p : PacketInfo) : FlowKey :=
  ⟨p.src_ip, p.dst_ip, p.src_port, p.dst_port, p.protocol⟩

/-- The fresh `FlowState` built by `FeatureExtractor._get_or_create_flow`. -/
def initFlow (k : FlowKey) (t : ℚ) : FlowState :=
  { flow_key := k, start_time := t, last_seen := t }

/-- `FeatureExtractor._get_or_create_flow`. -/
def getOrCreateFlow (st : Extractor) (p : PacketInfo) : Extractor × FlowState :=
  let k := createFlowKey p
  match dictGet k st.flows with
  | some fl => (st, fl)
  | none =>
    let fl := initFlow k p.timestamp
    ({ st with flows := dictSet k fl st.flows }, fl)

/-- `FeatureExtractor._update_flow_state`: counters, TCP flag counts, the
inter-arrival append, and the sliding-window truncation
(`recent_packets.pop(0)`, `xs[-window_size:]`). -/
def updateFlowState (window_size : Nat) (flow : FlowState) (p : PacketInfo) :
    FlowState :=
  let flow := { flow with last_seen := p.timestamp }
  let flow :=
    if p.src_ip = flow.flow_key.src_ip ∧ p.src_port = flow.flow_key.src_port then
      { flow with src_packets := flow.src_packets + 1,
                  src_bytes := flow.src_bytes + p.packet_size }
    else
      { flow with dst_packets := flow.dst_packets + 1,
                  dst_bytes := flow.dst_bytes + p.packet_size }
  let flow :=
    match p.tcp_flags with
    | some fl =>
      { flow with
        syn_count := flow.syn_count + (if fl &&& 2 ≠ 0 then 1 else 0),
        fin_count := flow.fin_count + (if fl &&& 1 ≠ 0 then 1 else 0),
        rst_count := flow.rst_count + (if fl &&& 4 ≠ 0 then 1 else 0) }
    | none => flow
  let flow :=
    match flow.recent_packets.getLast? with
    | some lastP =>
      { flow with inter_arrival_times :=
          flow.inter_arrival_times ++ [p.timestamp - lastP.timestamp] }
    | none => flow
  let flow :=
    { flow with packet_sizes := flow.packet_sizes ++ [p.packet_size],
                recent_packets := flow.recent_packets ++ [p] }
  if flow.recent_packets.length > window_size then
    { flow with recent_packets := flow.recent_packets.drop 1,
                inter_arrival_times := pySliceLast window_size flow.inter_arrival_times,
                packet_sizes := pySliceLast window_size flow.packet_sizes }
  else
    flow

/-- `FeatureExtractor._cleanup_expired_flows`; `now` is the `time.time()` read. -/
def cleanupExpiredFlows (now : ℚ) (st : Extractor) : Extractor :=
  if now - st.last_cleanup < 60 then st
  else
    { st with
      flows := st.flows.filter
        (fun kv => ! decide (now - kv.2.last_seen > st.session_timeout)),
      last_cleanup := now }

/-- Arithmetic mean as computed by `np.mean`. -/
def listMean (xs : List ℚ) : ℚ := xs.sum / (xs.length : ℚ)

/-- Population variance; `np.std` is the runtime square root of this. -/
def listVar (xs : List ℚ) : ℚ :=
  ((xs.map (fun x => (x - listMean xs) ^ 2)).sum) / (xs.length : ℚ)

/-- `FeatureExtractor._calculate_window_features`: returns
`(size_mean, size_std, iat_mean, iat_std, burstiness)`. -/
def calculateWindowFeatures (rt : Runtime) (flow : FlowState) :
    ℚ × ℚ × ℚ × ℚ × ℚ :=
  if flow.packet_sizes = [] then (0, 0, 0, 0, 0)
  else
    let sizes := flow.packet_sizes.map (fun n => (n : ℚ))
    let size_mean := listMean sizes
    let size_std := if sizes.length > 1 then rt.sqrtFn (listVar sizes) else 0
    if flow.inter_arrival_times = [] then (size_mean, size_std, 0, 0, 0)
    else
      let iat_mean := listMean flow.inter_arrival_times
      let iat_std :=
        if flow.inter_arrival_times.length > 1 then
          rt.sqrtFn (listVar flow.inter_arrival_times)
        else 0
      let burstiness := if iat_mean > 0 then iat_std / iat_mean else 0
      (size_mean, size_std, iat_mean, iat_std, burstiness)

/-- `FeatureExtractor._calculate_entropy`: Shannon entropy over a 256-bucket
byte histogram; `math.log2` is the runtime's `log2Fn`. -/
def calculateEntropy (rt : Runtime) (data : List Nat) : ℚ :=
  if data = [] then 0
  else
    (List.range 256).foldl
      (fun e b =>
        let c := data.count b
        if c > 0 then
          e - ((c : ℚ) / (data.length : ℚ)) * rt.log2Fn ((c : ℚ) / (data.length : ℚ))
        else e)
      0

/-- The DNS QNAME label walk in `FeatureExtractor._extract_payload_features`;
`fuel` bounds the `while` loop (each pass advances the index by at least one,
so `sec.length` passes always suffice). -/
def dnsQnameWalk (sec : List Nat) : Nat → Nat → Nat → Nat
  | 0, _, acc => acc
  | fuel + 1, i, acc =>
    if i < sec.length ∧ sec.getD i 0 ≠ 0 then
      let label_length := sec.getD i 0
      if label_length > 63 then acc
      else dnsQnameWalk sec fuel (i + label_length + 1) (acc + label_length + 1)
    else acc

/-- Contiguous-subsequence test, Python's `in` on bytes. -/
def bytesContains (needle : List Nat) : List Nat → Bool
  | [] => decide (needle = [])
  | b :: rest => needle.isPrefixOf (b :: rest) || bytesContains needle rest

/-- `FeatureExtractor._extract_payload_features`: returns
`(payload_entropy, printable_ratio, dns_qname_length, tls_sni_present)`.
The source's `b'\x5cx00\x5cx00'` marker is the eight literal characters
backslash, `x`, `0`, `0`, backslash, `x`, `0`, `0` (the Python bytes literal
is written with escaped backslashes). -/
def extractPayloadFeatures (rt : Runtime) (max_payload_bytes : Nat)
    (p : PacketInfo) : ℚ × ℚ × Option ℚ × Option Bool :=
  match p.payload with
  | none => (0, 0, none, none)
  | some raw =>
    if raw = [] then (0, 0, none, none)
    else
      let payload := raw.take max_payload_bytes
      let entropy := calculateEntropy rt payload
      let printable :=
        ((payload.countP (fun b => decide (32 ≤ b ∧ b ≤ 126)) : ℚ)) /
          (payload.length : ℚ)
      let dns :=
        if p.protocol = "udp" ∧ p.dst_port = 53 ∧ payload.length > 12 then
          let sec := payload.drop 12
          some ((dnsQnameWalk sec sec.length 0 0 : Nat) : ℚ)
        else none
      let tls :=
        if p.protocol = "tcp" ∧ p.dst_port = 443 ∧ payload.length > 50 ∧
            payload.headD 0 = 22 then
          some (bytesContains [92, 120, 48, 48, 92, 120, 48, 48] payload)
        else none
      (entropy, printable, dns, tls)

/-- `FeatureExtractor.extract_features`: updates the flow, derives the
per-packet/flow/window/payload features and runs the periodic cleanup.
`now` is the `time.time()` read inside `_cleanup_expired_flows`. -/
def extractFeatures (rt : Runtime) (now : ℚ) (st : Extractor) (p : PacketInfo) :
    Extractor × FeatureVector :=
  let res := getOrCreateFlow st p
  let st1 := res.1
  let flow := updateFlowState st1.window_size res.2 p
  let st2 := { st1 with flows := dictSet (createFlowKey p) flow st1.flows }
  let direction : Nat :=
    if p.src_ip = flow.flow_key.src_ip ∧ p.src_port = flow.flow_key.src_port
    then 0 else 1
  let inter_arrival_delta : ℚ :=
    if flow.recent_packets.length > 1 then
      match flow.recent_packets.dropLast.getLast? with
      | some q => p.timestamp - q.timestamp
      | none => 0
    else 0
  let tcp_flags_bitmap := p.tcp_flags.getD 0
  let ttl : ℚ := match p.ttl with | some t => (t : ℚ) | none => 64
  let total_bytes : ℚ := ((flow.src_bytes + flow.dst_bytes : Nat) : ℚ)
  let total_packets : ℚ := ((flow.src_packets + flow.dst_packets : Nat) : ℚ)
  let bytes_ratio : ℚ :=
    if flow.dst_bytes > 0 then
      (flow.src_bytes : ℚ) / ((max flow.dst_bytes 1 : Nat) : ℚ)
    else 0
  let flow_duration := p.timestamp - flow.start_time
  let packets_per_second := total_packets / max flow_duration (1/1000)
  let syn_fin_ratio : ℚ :=
    if flow.fin_count > 0 then (flow.syn_count : ℚ) / (flow.fin_count : ℚ)
    else if flow.syn_count > 0 then (flow.syn_count : ℚ) else 0
  let wf := calculateWindowFeatures rt flow
  let pf := extractPayloadFeatures rt st2.max_payload_bytes p
  let st3 := cleanupExpiredFlows now st2
  (st3,
   { timestamp := p.timestamp, flow_key := flow.flow_key,
     packet_size := (p.packet_size : ℚ), direction := direction,
     inter_arrival_delta := inter_arrival_delta,
     tcp_flags_bitmap := tcp_flags_bitmap, ttl := ttl,
     total_bytes := total_bytes, total_packets := total_packets,
     bytes_ratio := bytes_ratio, packets_per_second := packets_per_second,
     syn_fin_ratio := syn_fin_ratio,
     size_mean := wf.1, size_std := wf.2.1, iat_mean := wf.2.2.1,
     iat_std := wf.2.2.2.1, burstiness := wf.2.2.2.2,
     payload_entropy := pf.1, printable_ratio := pf.2.1,
     dns_qname_length := pf.2.2.1, tls_sni_present := pf.2.2.2 })

/-- The flow state `extract_features` computes for a packet (the updated
object stored back into `self.flows`). -/
def flowAfter (st : Extractor) (p : PacketInfo) : FlowState :=
  updateFlowState (getOrCreateFlow st p).1.window_size (getOrCreateFlow st p).2 p

/-- Drive `extract_features` over a list of `(wall-clock, packet)` pairs,
collecting the produced feature vectors. -/
def processAll (rt : Runtime) :
    Extractor → List (ℚ × PacketInfo) → Extractor × List FeatureVector
  | st, [] => (st, [])
  | st, (now, p) :: rest =>
    let r := extractFeatures rt now st p
    let rr := processAll rt r.1 rest
    (rr.1, r.2 :: rr.2)

/-- Consecutive differences of a timestamp list: the full history of
inter-arrival times a flow would accumulate without truncation. -/
def timestampDiffs : List ℚ → List ℚ
  | [] => []
  | [_] => []
  | a :: b :: rest => (b - a) :: timestampDiffs (b :: rest)

/-! ## Heuristic classification engine (`backend/nids/models.py`,
`SimpleModelAdapter`) -/

/-- One value of `self.flow_stats` in `SimpleModelAdapter`. -/
structure FlowStat where
  packet_count : Nat
  first_seen : ℚ
  last_seen : ℚ
  total_bytes : ℚ
deriving DecidableEq

/-- `SimpleModelAdapter` state (`binary_threshold`, `flow_stats`,
`packet_count`). -/
structure SimpleModelAdapter where
  binary_threshold : ℚ
  flow_stats : List (String × FlowStat)
  packet_count : Nat
deriving DecidableEq

/-- `SimpleModelAdapter.__init__`: threshold 0.5, empty statistics. -/
def initAdapter : SimpleModelAdapter := ⟨1/2, [], 0⟩

/-- `self.class_names`. -/
def classNames : List String :=
  ["Normal", "DoS", "Exploits", "Fuzzers", "Reconnaissance"]

/-- The `flow_id` string built in `predict`. -/
def flowIdOf (fk : FlowKey) : String :=
  fk.src_ip ++ ":" ++ toString fk.src_port ++ "->" ++
    fk.dst_ip ++ ":" ++ toString fk.dst_port

/-- `str.startswith(prefix)` via the character lists (structural recursion,
so concrete runs reduce). -/
def pyStartsWith (s pre : String) : Bool := pre.data.isPrefixOf s.data

/-- Scanner for Python `str.split(sep)` with a non-empty separator; `fuel`
bounds the scan (one unit per character suffices). -/
def pySplitAux (sep : List Char) : Nat → List Char → List Char → List (List Char)
  | 0, acc, rest => [acc ++ rest]
  | fuel + 1, acc, rest =>
    match rest with
    | [] => [acc]
    | c :: rs =>
      if sep.isPrefixOf rest then
        acc :: pySplitAux sep fuel [] (rest.drop sep.length)
      else
        pySplitAux sep fuel (acc ++ [c]) rs

/-- Python `str.split(sep)` over the character lists (structural, so concrete
runs reduce; same splitting semantics as `String.splitOn` for the non-empty
separators used here). -/
def pySplitOn (s sep : String) : List String :=
  if sep.data = [] then [s]
  else (pySplitAux sep.data s.data.length [] s.data).map String.mk

/-- Python `int(s)` restricted to plain digit strings (`none` otherwise, the
try/except path); the port fields parsed here are always plain digits. -/
def pyToNat? (s : String) : Option Nat :=
  if s.data ≠ [] ∧ s.data.all Char.isDigit then
    some (s.data.foldl (fun n c => 10 * n + (c.toNat - 48)) 0)
  else none

/-- The port recovered from a tracked flow-id string, with the surrounding
try/except: `none` when an index is out of range or the text is not a
number. -/
def parseDstPort (f : String) : Option Nat :=
  match (pySplitOn f "->").get? 1 with
  | none => none
  | some second =>
    match (pySplitOn second ":").get? 1 with
    | none => none
    | some portStr => pyToNat? portStr

/-- The statistics entry created on first sight of a flow. -/
def freshFlowStat (t : ℚ) : FlowStat := ⟨0, t, t, 0⟩

/-- `self.flow_stats` after the tracking block at the top of `predict`
(create-if-absent, then increment count, refresh `last_seen`, add bytes). -/
def flowStatsAfter (s : SimpleModelAdapter) (fv : FeatureVector) :
    List (String × FlowStat) :=
  let flow_id := flowIdOf fv.flow_key
  let stats0 :=
    if (dictGet flow_id s.flow_stats).isSome then s.flow_stats
    else dictSet flow_id (freshFlowStat fv.timestamp) s.flow_stats
  let fs := (dictGet flow_id stats0).getD (freshFlowStat fv.timestamp)
  dictSet flow_id
    ⟨fs.packet_count + 1, fs.first_seen, fv.timestamp,
      fs.total_bytes + fv.packet_size⟩
    stats0

/-- The updated statistics entry for the packet's own flow. -/
def flowStatAfter (s : SimpleModelAdapter) (fv : FeatureVector) : FlowStat :=
  (dictGet (flowIdOf fv.flow_key) (flowStatsAfter s fv)).getD
    (freshFlowStat fv.timestamp)

/-- `flow_pps = flow_stat['packet_count'] / max(0.1, last_seen - first_seen)`. -/
def flowPps (s : SimpleModelAdapter) (fv : FeatureVector) : ℚ :=
  let fs := flowStatAfter s fv
  (fs.packet_count : ℚ) / max (1/10) (fs.last_seen - fs.first_seen)

/-- The set of distinct destination ports recently contacted by the packet's
source, recovered by parsing the tracked flow-id strings. -/
def uniqueDstPorts (s : SimpleModelAdapter) (fv : FeatureVector) : List Nat :=
  ((((flowStatsAfter s fv).map Prod.fst).filter
      (fun f => pyStartsWith f (fv.flow_key.src_ip ++ ":"))).filterMap
    parseDstPort).dedup

/-- `recent_flows`: the tracked flows first seen within the last ten seconds. -/
def recentFlows (s : SimpleModelAdapter) (fv : FeatureVector) : List FlowStat :=
  ((flowStatsAfter s fv).map Prod.snd).filter
    (fun stat => decide (fv.timestamp - stat.first_seen < 10))

/-- The `common_ports` set in `predict`. -/
def commonPorts : List Nat := [21, 22, 23, 25, 53, 80, 110, 143, 443, 993, 995, 3389]

/-- The additive attack score of `SimpleModelAdapter.predict`: port-scan
breadth, packet rate, unusual destination port, packet-size extremes, ICMP,
payload entropy, burstiness and flow-burst indicators, plus the deterministic
baseline noise `(hash(endpoints) % 100) / 1000`. The SYN-flood signature block
is guarded by `hasattr(feature_vector, 'tcp_flags')`, which is False for the
pydantic `FeatureVector` (its field is `tcp_flags_bitmap`), so that block
never contributes. -/
def attackScore (rt : Runtime) (s : SimpleModelAdapter) (fv : FeatureVector) : ℚ :=
  let fk := fv.flow_key
  let score0 : ℚ := 0
  let score1 := if (uniqueDstPorts s fv).length > 5 then score0 + 3/5 else score0
  let pps := flowPps s fv
  let score2 :=
    if pps > 10 then (if pps > 50 then score1 + 2/5 + 2/5 else score1 + 2/5)
    else score1
  let score3 :=
    if fk.dst_port ∈ commonPorts then score2
    else if fk.dst_port > 1024 then score2 + 1/5 + 1/10 else score2 + 1/5
  let score4 :=
    if fv.packet_size < 64 then score3 + 1/5
    else if fv.packet_size > 1400 then score3 + 1/5 else score3
  let score5 := if fk.protocol = "icmp" then score4 + 3/10 else score4
  let score6 := if fv.payload_entropy > 15/2 then score5 + 3/10 else score5
  let score7 := if fv.burstiness > 2 then score6 + 1/5 else score6
  let score8 := if (recentFlows s fv).length > 20 then score7 + 2/5 else score7
  let flow_hash := rt.hashFn (fk.src_ip, fk.dst_ip, fk.src_port, fk.dst_port)
  let baseline_noise : ℚ := ((flow_hash % 100 : ℤ) : ℚ) / 1000
  score8 + baseline_noise

/-- `attack_prob = max(0.0, min(1.0, attack_score))`. -/
def predictProb (rt : Runtime) (s : SimpleModelAdapter) (fv : FeatureVector) : ℚ :=
  max 0 (min 1 (attackScore rt s fv))

/-- The multiclass reassignment inside the `if is_attack:` block. -/
def chosenAttackClass (s : SimpleModelAdapter) (fv : FeatureVector) : String :=
  if (uniqueDstPorts s fv).length > 5 then "Reconnaissance"
  else if flowPps s fv > 50 ∨ (recentFlows s fv).length > 20 then "DoS"
  else if fv.payload_entropy > 15/2 then "Exploits"
  else if fv.flow_key.protocol = "icmp" then "DoS"
  else "Fuzzers"

/-- The synthesized per-class probability dict: 0.05 everywhere, then the
chosen class set to `max(0.6, attack_prob)`, then `Normal` set to
`1.0 - attack_prob`. -/
def classProbs (c : String) (p : ℚ) : List (String × ℚ) :=
  dictSet "Normal" (1 - p) (dictSet c (max (3/5) p) (classNames.map (fun n => (n, 1/20))))

/-- `SimpleModelAdapter._cleanup_old_flows` (keep the last five minutes). -/
def cleanupOldFlows (current_time : ℚ) (l : List (String × FlowStat)) :
    List (String × FlowStat) :=
  l.filter (fun kv => ! decide (kv.2.last_seen < current_time - 300))

/-- `SimpleModelAdapter.predict`: the adapter state after the call and the
returned prediction. `processing_time_ms` is a wall-clock measurement and is
modelled as 0. -/
def predict (rt : Runtime) (s : SimpleModelAdapter) (fv : FeatureVector) :
    SimpleModelAdapter × ModelPrediction :=
  let packet_count := s.packet_count + 1
  let stats1 := flowStatsAfter s fv
  let attack_prob := predictProb rt s fv
  let is_attack : Bool := decide (attack_prob > s.binary_threshold)
  let stats2 :=
    if packet_count % 1000 = 0 then cleanupOldFlows fv.timestamp stats1 else stats1
  (⟨s.binary_threshold, stats2, packet_count⟩,
   { timestamp := fv.timestamp,
     flow_key := fv.flow_key,
     is_attack := is_attack,
     attack_probability := attack_prob,
     attack_class := if is_attack then some (chosenAttackClass s fv) else none,
     class_probabilities :=
       if is_attack then some (classProbs (chosenAttackClass s fv) attack_prob)
       else none,
     model_version := "enhanced-simple-1.0",
     threshold_used := s.binary_threshold,
     processing_time_ms := 0 })

/-- `SimpleModelAdapter.set_threshold`. -/
def setThreshold (s : SimpleModelAdapter) (t : ℚ) : SimpleModelAdapter :=
  { s with binary_threshold := max 0 (min 1 t) }

/-! ## Alert management (`backend/nids/alerts.py`) -/

/-- One JSONL record of the append-only alert log, as written by
`AlertManager._log_alert`. The file is modelled as the list of its records;
`json.dumps`/`json.loads` round-trip these fields exactly. -/
structure AlertRecord where
  timestamp : ℚ
  alert_id : String
  severity : String
  attack_type : String
  confidence : ℚ
  source_ip : String
  destination_ip : String
  destination_port : Nat
  protocol : String
  description : String
  recommended_action : Option String
  processing_time_ms : ℚ
deriving DecidableEq

/-- One entry of the in-memory/API alert dictionaries (the dict built in
`generate_alert` and the one rebuilt in `get_recent_alerts`). -/
structure FormattedAlert where
  id : String
  timestamp : ℚ
  attack_type : String
  attack_class : String
  severity : String
  confidence : ℚ
  probability : ℚ
  src_ip : String
  dst_ip : String
  src_port : Nat
  dst_port : Nat
  protocol : String
  description : String
  recommended_action : Option String
  packet_length : ℚ
  interface : String
  flags : String
deriving DecidableEq

/-- `AlertManager` state: thresholds, the cooldown map (`recent_alerts`), the
in-memory buffer (`_recent_alerts`) and the log file contents. -/
structure AlertManager where
  min_confidence : ℚ
  cooldown_seconds : ℚ
  recent_alerts : List (String × ℚ)
  mem : List FormattedAlert
  log : List AlertRecord
deriving DecidableEq

/-- `AlertManager._create_alert_key`: `src_ip:dst_ip:attack_class-or-attack`. -/
def createAlertKey (p : ModelPrediction) : String :=
  p.flow_key.src_ip ++ ":" ++ p.flow_key.dst_ip ++ ":" ++
    (p.attack_class.getD "attack")

/-- `AlertManager._should_alert`; `now` is the `time.time()` read. Returns the
decision and the updated manager (the cooldown stamp is refreshed only when
the decision is True). -/
def shouldAlert (now : ℚ) (p : ModelPrediction) (m : AlertManager) :
    Bool × AlertManager :=
  if p.attack_probability < m.min_confidence then (false, m)
  else
    let alert_key := createAlertKey p
    match dictGet alert_key m.recent_alerts with
    | some t =>
      if now - t < m.cooldown_seconds then (false, m)
      else (true, { m with recent_alerts := dictSet alert_key now m.recent_alerts })
    | none => (true, { m with recent_alerts := dictSet alert_key now m.recent_alerts })

/-- `AlertManager._determine_severity`. -/
def determineSeverity (p : ModelPrediction) : String :=
  if (p.attack_class = some "DoS" ∨ p.attack_class = some "Exploits") ∧
      p.attack_probability > 9/10 then "critical"
  else if p.attack_probability > 17/20 then "high"
  else if p.attack_probability > 3/4 then "medium"
  else "low"

/-- `AlertManager._create_alert_description`; the one-decimal percentage
formatting is the runtime's `fmtFn`. -/
def createAlertDescription (rt : Runtime) (p : ModelPrediction) : String :=
  (p.attack_class.getD "Unknown Attack") ++ " detected from " ++
    p.flow_key.src_ip ++ " to " ++ p.flow_key.dst_ip ++ ":" ++
    toString p.flow_key.dst_port ++ " (confidence: " ++
    rt.fmtFn (p.attack_probability * 100) ++ "%)"

/-- `AlertManager._get_recommended_action`. -/
def getRecommendedAction (p : ModelPrediction) : String :=
  if p.attack_class = some "DoS" then
    "Consider rate limiting or blocking source IP"
  else if p.attack_class = some "Exploits" then
    "Investigate payload and consider blocking connection"
  else if p.attack_class = some "Reconnaissance" then
    "Monitor for follow-up attacks from this source"
  else if p.attack_class = some "Fuzzers" then
    "Check application logs for errors or crashes"
  else "Monitor connection and investigate if persistent"

/-- The `Alert` object constructed in `generate_alert`; `uuid` stands for the
generated `uuid.uuid4()` string. -/
def buildAlert (rt : Runtime) (uuid : String) (p : ModelPrediction) : Alert :=
  { timestamp := p.timestamp,
    alert_id := uuid,
    severity := determineSeverity p,
    attack_type := p.attack_class.getD "Unknown",
    confidence := p.attack_probability,
    source_ip := p.flow_key.src_ip,
    destination_ip := p.flow_key.dst_ip,
    flow_key := p.flow_key,
    prediction := p,
    description := createAlertDescription rt p,
    recommended_action := some (getRecommendedAction p) }

/-- The JSONL record written by `AlertManager._log_alert`. -/
def logRecordOf (a : Alert) : AlertRecord :=
  { timestamp := a.timestamp, alert_id := a.alert_id, severity := a.severity,
    attack_type := a.attack_type, confidence := a.confidence,
    source_ip := a.source_ip, destination_ip := a.destination_ip,
    destination_port := a.flow_key.dst_port, protocol := a.flow_key.protocol,
    description := a.description, recommended_action := a.recommended_action,
    processing_time_ms := a.prediction.processing_time_ms }

/-- The in-memory dictionary stored by `generate_alert`. `packet_length` is
`getattr(prediction, 'packet_size', 0)` and `ModelPrediction` has no
`packet_size` field, so it is always 0. -/
def memEntryOf (a : Alert) : FormattedAlert :=
  { id := a.alert_id, timestamp := a.timestamp, attack_type := a.attack_type,
    attack_class := a.attack_type, severity := a.severity,
    confidence := a.confidence, probability := a.confidence,
    src_ip := a.source_ip, dst_ip := a.destination_ip,
    src_port := a.flow_key.src_port, dst_port := a.flow_key.dst_port,
    protocol := a.flow_key.protocol, description := a.description,
    recommended_action := a.recommended_action, packet_length := 0,
    interface := "auto", flags := "SYN" }

/-- `AlertManager.generate_alert`; `now` is the `time.time()` read inside
`_should_alert` and `uuid` the generated alert id. The toast notification is
a UI side effect outside the model; the log write appends one record. -/
def generateAlert (rt : Runtime) (now : ℚ) (uuid : String)
    (p : ModelPrediction) (m : AlertManager) : AlertManager × Option Alert :=
  if p.is_attack then
    match shouldAlert now p m with
    | (false, m1) => (m1, none)
    | (true, m1) =>
      let alert := buildAlert rt uuid p
      ({ m1 with log := m1.log ++ [logRecordOf alert],
                 mem := (memEntryOf alert :: m1.mem).take 1000 },
       some alert)
  else (m, none)

/-- The per-line conversion in the log fallback of
`AlertManager.get_recent_alerts`. The log record has no `src_port` key, so
`alert_data.get('src_port', 0)` always yields 0. -/
def formatFromLog (r : AlertRecord) : FormattedAlert :=
  { id := r.alert_id, timestamp := r.timestamp, attack_type := r.attack_type,
    attack_class := r.attack_type, severity := r.severity,
    confidence := r.confidence, probability := r.confidence,
    src_ip := r.source_ip, dst_ip := r.destination_ip,
    src_port := 0, dst_port := r.destination_port, protocol := r.protocol,
    description := r.description, recommended_action := r.recommended_action,
    packet_length := 0, interface := "auto", flags := "SYN" }

/-- `AlertManager.get_recent_alerts`: the in-memory buffer when non-empty,
otherwise the last `limit` lines of the log file in file order. -/
def getRecentAlerts (m : AlertManager) (limit : Nat) : List FormattedAlert :=
  if m.mem ≠ [] then m.mem.take limit
  else
    let recent_lines := if m.log.length > limit then pySliceLast limit m.log else m.log
    recent_lines.map formatFromLog

/-! ## Packet parsing (`backend/backend/src/nids/capture.py`) -/

/-- Scapy IPv4 layer fields read by `_parse_packet`. -/
structure IPv4Layer where
  src : String
  dst : String
  ttl : Nat
  flags : Nat
deriving DecidableEq

/-- Scapy IPv6 layer fields read by `_parse_packet`. -/
structure IPv6Layer where
  src : String
  dst : String
  hlim : Nat
deriving DecidableEq

/-- Scapy TCP layer fields read by `_parse_packet`. -/
structure TCPLayer where
  sport : Nat
  dport : Nat
  flags : Nat
  window : Nat
  seqn : Nat
  ackn : Nat
deriving DecidableEq

/-- Scapy UDP layer fields read by `_parse_packet`. -/
structure UDPLayer where
  sport : Nat
  dport : Nat
deriving DecidableEq

/-- A raw captured frame as seen through the scapy layer queries that
`_parse_packet` performs. -/
structure RawFrame where
  ip : Option IPv4Layer
  ipv6 : Option IPv6Layer
  tcp : Option TCPLayer
  udp : Option UDPLayer
  icmp : Bool
  raw : Option (List Nat)
  frameLen : Nat
deriving DecidableEq

/-- `PacketCapture._parse_packet`; `now` is the `time.time()` read. Parsing
is total: the catch-all `except` is modelled by the `Option` result, so no
exception reaches the caller, and `_packet_handler` simply drops a `none`. -/
def parsePacket (now : ℚ) (f : RawFrame) : Option PacketInfo :=
  let l3 : Option (String × String × Nat × Nat) :=
    match f.ip with
    | some v4 => some (v4.src, v4.dst, v4.ttl, v4.flags)
    | none =>
      match f.ipv6 with
      | some v6 => some (v6.src, v6.dst, v6.hlim, 0)
      | none => none
  match l3 with
  | none => none
  | some (src_ip, dst_ip, ttl, ip_flags) =>
    let l4 : String × Nat × Nat × Option Nat × Option Nat × Option Nat × Option Nat :=
      match f.tcp with
      | some t =>
        ("tcp", t.sport, t.dport, some t.flags, some t.window, some t.seqn,
          some t.ackn)
      | none =>
        match f.udp with
        | some u => ("udp", u.sport, u.dport, none, none, none, none)
        | none =>
          if f.icmp then ("icmp", 0, 0, none, none, none, none)
          else ("unknown", 0, 0, none, none, none, none)
    let (protocol, src_port, dst_port, tcp_flags, tcp_window, tcp_seq, tcp_ack) := l4
    let payload_size := match f.raw with | some bs => bs.length | none => 0
    some
      { timestamp := now, src_ip := src_ip, dst_ip := dst_ip,
        src_port := src_port, dst_port := dst_port, protocol := protocol,
        packet_size := f.frameLen, payload_size := payload_size,
        payload := f.raw, tcp_flags := tcp_flags, tcp_window := tcp_window,
        tcp_seq := tcp_seq, tcp_ack := tcp_ack,
        ttl := some ttl, ip_flags := some ip_flags }

/-! ## Specification-side definitions for refinement comparisons -/

/-- The severity rule exactly as the specification words it (first matching
rule wins, evaluated in this order): critical if class ∈ {DoS, Exploits} and
probability > 0.9; else high if probability > 0.85; else medium if
probability > 0.75; else low. Kept separate from `determineSeverity` (which
is read off the code) so the two can be compared. -/
def severitySpec (attack_class : Option String) (probability : ℚ) : String :=
  if (attack_class = some "DoS" ∨ attack_class = some "Exploits") ∧
      probability > 9/10 then "critical"
  else if probability > 17/20 then "high"
  else if probability > 3/4 then "medium"
  else "low"

/-! ## Concrete sample data used by witnesses and counterexamples -/

/-- A fresh extractor with the given configuration (empty flow table). -/
def mkExtractor (window_size : Nat) (window_overlap session_timeout : ℚ)
    (max_payload_bytes : Nat) (last_cleanup : ℚ) : Extractor :=
  ⟨window_size, window_overlap, session_timeout, max_payload_bytes, [], last_cleanup⟩

/-- A sample flow key: TCP to an uncommon high port. -/
def sampleKey : FlowKey := ⟨"10.0.0.1", "10.0.0.2", 1234, 2000, "tcp"⟩

/-- A sample feature vector on `sampleKey` with unremarkable contents. -/
def sampleFV : FeatureVector :=
  { timestamp := 0, flow_key := sampleKey, packet_size := 500, direction := 0,
    inter_arrival_delta := 0, tcp_flags_bitmap := 2, ttl := 64,
    total_bytes := 500, total_packets := 1, bytes_ratio := 0,
    packets_per_second := 10, syn_fin_ratio := 1, size_mean := 500,
    size_std := 0, iat_mean := 0, iat_std := 0, burstiness := 0,
    payload_entropy := 0, printable_ratio := 0 }

/-- `sampleFV` with a high-entropy payload indication. -/
def sampleFVhighEntropy : FeatureVector := { sampleFV with payload_entropy := 8 }

/-- A sample attack prediction at time `t` with the given class and
probability. -/
def mkPrediction (t : ℚ) (cls : Option String) (p : ℚ) : ModelPrediction :=
  { timestamp := t, flow_key := sampleKey, is_attack := true,
    attack_probability := p, attack_class := cls,
    model_version := "enhanced-simple-1.0", threshold_used := 1/2,
    processing_time_ms := 0 }

/-- An alert manager with the default construction parameters and no state. -/
def sampleManager : AlertManager :=
  { min_confidence := 7/10, cooldown_seconds := 30, recent_alerts := [],
    mem := [], log := [] }

/-- A sample TCP SYN packet. -/
def samplePacket : PacketInfo :=
  { timestamp := 0, src_ip := "10.0.0.1", dst_ip := "10.0.0.2",
    src_port := 1234, dst_port := 80, protocol := "tcp", packet_size := 100,
    payload_size := 0, tcp_flags := some 2 }

/-- `samplePacket` one second later. -/
def samplePacket2 : PacketInfo := { samplePacket with timestamp := 1 }

/-- `samplePacket` three seconds later. -/
def samplePacket3 : PacketInfo := { samplePacket with timestamp := 3 }

/-- A fresh extractor with window size 2. -/
def sampleExtractor : Extractor := mkExtractor 2 (1/2) 300 1500 0

/-- The alert-manager state reached by generating a DoS alert at time 0 and a
Reconnaissance alert at time 1 from a fresh manager, then restarting with an
empty in-memory buffer (the log survives, the memory does not). -/
def restartedManager : AlertManager :=
  { (generateAlert runtime0 1 "id2" (mkPrediction 1 (some "Reconnaissance") (4/5))
      (generateAlert runtime0 0 "id1" (mkPrediction 0 (some "DoS") (4/5))
        sampleManager).1).1 with mem := [] }

/-- A captured frame with no IP layer at all. -/
def sampleFrameNoIP : RawFrame :=
  { ip := none, ipv6 := none, tcp := none, udp := none, icmp := false,
    raw := none, frameLen := 60 }

/-- A captured IPv4 frame whose transport is neither TCP, UDP nor ICMP. -/
def sampleFrameUnknownTransport : RawFrame :=
  { ip := some ⟨"10.0.0.1", "10.0.0.2", 64, 0⟩, ipv6 := none, tcp := none,
    udp := none, icmp := false, raw := none, frameLen := 100 }

end NIDS

namespace NIDS

/-! ## Helper lemmas about the dict and slice primitives -/

theorem dictGet_dictSet_self {α β : Type} [DecidableEq α] (k : α) (v : β)
    (l : List (α × β)) : dictGet k (dictSet k v l) = some v := by
  induction l with
  | nil => simp [dictGet, dictSet]
  | cons kv rest ih =>
    by_cases h : kv.1 = k
    · simp [dictGet, dictSet, h]
    · simp [dictGet, dictSet, h, ih]

theorem mem_of_dictGet_eq_some {α β : Type} [DecidableEq α] {k : α} {v : β}
    {l : List (α × β)} (h : dictGet k l = some v) : (k, v) ∈ l := by
  induction l with
  | nil => simp [dictGet] at h
  | cons kv rest ih =>
    by_cases hk : kv.1 = k
    · rw [dictGet, if_pos hk] at h
      have hkv : kv = (k, v) := by
        obtain ⟨a, b⟩ := kv
        simp only [Option.some.injEq] at h
        simp_all
      rw [← hkv]
      exact List.mem_cons_self _ _
    · rw [dictGet, if_neg hk] at h
      exact List.mem_cons_of_mem _ (ih h)

theorem mem_dictSet {α β : Type} [DecidableEq α] {k : α} {v : β}
    {l : List (α × β)} {kv : α × β} (h : kv ∈ dictSet k v l) :
    kv = (k, v) ∨ kv ∈ l := by
  induction l with
  | nil => simpa [dictSet] using h
  | cons kv2 rest ih =>
    by_cases hk : kv2.1 = k
    · rw [dictSet, if_pos hk] at h
      rcases List.mem_cons.mp h with h1 | h2
      · subst h1
        subst hk
        left
        rfl
      · right
        exact List.mem_cons_of_mem _ h2
    · rw [dictSet, if_neg hk] at h
      rcases List.mem_cons.mp h with h1 | h2
      · right
        exact h1 ▸ List.mem_cons_self _ _
      · rcases ih h2 with h3 | h3
        · left; exact h3
        · right; exact List.mem_cons_of_mem _ h3

theorem pySliceLast_length_le {α : Type} {k : Nat} (hk : 1 ≤ k) (xs : List α) :
    (pySliceLast k xs).length ≤ k := by
  rw [pySliceLast, if_neg (by omega)]
  rw [List.length_drop]
  omega

theorem pySliceLast_eq_self {α : Type} {k : Nat} {xs : List α}
    (h : xs.length ≤ k) : pySliceLast k xs = xs := by
  rw [pySliceLast]
  split
  · rfl
  · rw [Nat.sub_eq_zero_of_le h, List.drop_zero]

theorem pySliceLast_length {α : Type} {k : Nat} (hk : 1 ≤ k) (xs : List α) :
    (pySliceLast k xs).length = min k xs.length := by
  rw [pySliceLast, if_neg (by omega), List.length_drop]
  omega

theorem pySliceLast_pySliceLast {α : Type} {j k : Nat} (h : j ≤ k) (hj : 1 ≤ j)
    (xs : List α) : pySliceLast j (pySliceLast k xs) = pySliceLast j xs := by
  have hj0 : ¬ j = 0 := by omega
  have hk0 : ¬ k = 0 := by omega
  simp only [pySliceLast, if_neg hj0, if_neg hk0, List.drop_drop, List.length_drop]
  congr 1
  omega

theorem drop_one_append_singleton {α : Type} (xs : List α) (hx : xs ≠ []) (a : α) :
    List.drop 1 (xs ++ [a]) = List.drop 1 xs ++ [a] := by
  cases xs with
  | nil => exact absurd rfl hx
  | cons y ys => simp

theorem pySliceLast_append_singleton_of_length_le {α : Type} {k : Nat}
    (hk : 1 ≤ k) {xs : List α} (h : k ≤ xs.length) (a : α) :
    List.drop 1 (pySliceLast k xs ++ [a]) = pySliceLast k (xs ++ [a]) := by
  have hk0 : ¬ k = 0 := by omega
  have hne : pySliceLast k xs ≠ [] := by
    intro hcon
    have hcl := congrArg List.length hcon
    rw [pySliceLast_length hk] at hcl
    simp only [List.length_nil] at hcl
    omega
  rw [drop_one_append_singleton _ hne]
  simp only [pySliceLast, if_neg hk0, List.drop_drop, List.length_append,
    List.length_cons, List.length_nil]
  rw [List.drop_append_of_le_length (by omega)]
  congr 2
  omega

theorem pySliceLast_pySliceLast_append_singleton {α : Type} {k : Nat} (hk : 1 ≤ k)
    (xs : List α) (a : α) :
    pySliceLast k (pySliceLast k xs ++ [a]) = pySliceLast k (xs ++ [a]) := by
  have hk0 : ¬ k = 0 := by omega
  by_cases h : k ≤ xs.length
  · have hlen : (pySliceLast k xs ++ [a]).length = k + 1 := by
      rw [List.length_append, pySliceLast_length hk]
      simp only [List.length_cons, List.length_nil]
      omega
    conv_lhs => rw [pySliceLast, if_neg hk0, hlen]
    have h1 : k + 1 - k = 1 := by omega
    rw [h1]
    exact pySliceLast_append_singleton_of_length_le hk h a
  · have h1 : pySliceLast k xs = xs := pySliceLast_eq_self (by omega)
    have h2 : pySliceLast k (xs ++ [a]) = xs ++ [a] := by
      refine pySliceLast_eq_self ?_
      simp only [List.length_append, List.length_cons, List.length_nil]
      omega
    rw [h1, h2]

theorem getLast?_pySliceLast {α : Type} {k : Nat} (hk : 1 ≤ k) (xs : List α)
    (hx : xs ≠ []) : (pySliceLast k xs).getLast? = xs.getLast? := by
  have hk0 : ¬ k = 0 := by omega
  rw [pySliceLast, if_neg hk0]
  have hx0 : xs.length ≠ 0 := fun h0 => hx (List.eq_nil_of_length_eq_zero h0)
  have hne : List.drop (xs.length - k) xs ≠ [] := by
    intro hcon
    have hcl := congrArg List.length hcon
    rw [List.length_drop] at hcl
    simp at hcl
    omega
  obtain ⟨y, hy⟩ := Option.isSome_iff_exists.mp (List.getLast?_isSome.mpr hne)
  conv_rhs => rw [← List.take_append_drop (xs.length - k) xs]
  rw [List.getLast?_append, hy, Option.or_some]

end NIDS

namespace NIDS

/-! ## C1: probability bounds and threshold semantics of `predict` -/

/-- C1: for every FeatureVector given to the heuristic engine's `predict`,
the returned ModelPrediction has `attack_probability` in [0,1], and
`is_attack` is true if and only if `attack_probability` is strictly greater
than the engine's current threshold. -/
theorem c1_probability_bounds_and_threshold (rt : Runtime)
    (s : SimpleModelAdapter) (fv : FeatureVector) :
    0 ≤ (predict rt s fv).2.attack_probability ∧
    (predict rt s fv).2.attack_probability ≤ 1 ∧
    ((predict rt s fv).2.is_attack = true ↔
      (predict rt s fv).2.attack_probability > s.binary_threshold) := by
  refine ⟨?_, ?_, ?_⟩
  · show 0 ≤ max 0 (min 1 (attackScore rt s fv))
    exact le_max_left 0 _
  · show max 0 (min 1 (attackScore rt s fv)) ≤ 1
    exact max_le (by norm_num) (min_le_left 1 _)
  · show decide (predictProb rt s fv > s.binary_threshold) = true ↔ _
    exact decide_eq_true_iff

/-! ## C4: severity assignment -/

/-- C4: severity is assigned by the first matching rule, in the fixed order
the specification states; in particular class DoS with probability 0.95
yields critical, and probability 0.80 with a non-DoS/Exploits class yields
medium. -/
theorem c4_severity_rules (p : ModelPrediction) :
    determineSeverity p = severitySpec p.attack_class p.attack_probability ∧
    (p.attack_class = some "DoS" → p.attack_probability = 19/20 →
      determineSeverity p = "critical") ∧
    (p.attack_probability = 4/5 → p.attack_class ≠ some "DoS" →
      p.attack_class ≠ some "Exploits" → determineSeverity p = "medium") := by
  refine ⟨rfl, ?_, ?_⟩
  · intro hc hp
    rw [determineSeverity, if_pos]
    constructor
    · left
      exact hc
    · rw [hp]
      norm_num
  · intro hp hd he
    rw [determineSeverity, if_neg, if_neg, if_pos]
    · rw [hp]; norm_num
    · rw [hp]; norm_num
    · rintro ⟨-, hgt⟩
      rw [hp] at hgt
      norm_num at hgt

/-- Witness for C4 at the two concrete instances named by the claim. -/
theorem c4_severity_rules_witness :
    determineSeverity (mkPrediction 0 (some "DoS") (19/20)) = "critical" ∧
    determineSeverity (mkPrediction 0 (some "Fuzzers") (4/5)) = "medium" :=
  ⟨(c4_severity_rules (mkPrediction 0 (some "DoS") (19/20))).2.1 rfl rfl,
   (c4_severity_rules (mkPrediction 0 (some "Fuzzers") (4/5))).2.2 rfl
     (by decide) (by decide)⟩

/-! ## C9: determinism of the heuristic fallback -/

/-- C9: the heuristic fallback classifier is deterministic — two calls from
identical adapter state on identical feature vectors (within one process,
i.e. with the same ambient runtime) produce identical `attack_probability`,
`is_attack` and `attack_class`. -/
theorem c9_predict_deterministic (rt : Runtime) (s1 s2 : SimpleModelAdapter)
    (fv1 fv2 : FeatureVector) (hs : s1 = s2) (hf : fv1 = fv2) :
    (predict rt s1 fv1).2.attack_probability =
      (predict rt s2 fv2).2.attack_probability ∧
    (predict rt s1 fv1).2.is_attack = (predict rt s2 fv2).2.is_attack ∧
    (predict rt s1 fv1).2.attack_class = (predict rt s2 fv2).2.attack_class := by
  subst hs
  subst hf
  exact ⟨rfl, rfl, rfl⟩

/-- Witness for C9 at a concrete state and input. -/
theorem c9_predict_deterministic_witness :
    (predict runtime0 initAdapter sampleFV).2.attack_probability =
      (predict runtime0 initAdapter sampleFV).2.attack_probability ∧
    (predict runtime0 initAdapter sampleFV).2.is_attack =
      (predict runtime0 initAdapter sampleFV).2.is_attack ∧
    (predict runtime0 initAdapter sampleFV).2.attack_class =
      (predict runtime0 initAdapter sampleFV).2.attack_class :=
  c9_predict_deterministic runtime0 initAdapter initAdapter sampleFV sampleFV
    rfl rfl

/-! ## C5: bytes ratio and packet rate -/

/-- C5 as stated is false: with `dst_bytes = 0` and `src_bytes = 100 > 0`
the extracted `bytes_ratio` is 0, not `src_bytes / max(dst_bytes, 1) = 100`. -/
theorem c5_counterexample :
    (extractFeatures runtime0 0 sampleExtractor samplePacket).2.bytes_ratio = 0 ∧
    (flowAfter sampleExtractor samplePacket).src_bytes = 100 ∧
    (flowAfter sampleExtractor samplePacket).dst_bytes = 0 ∧
    ((flowAfter sampleExtractor samplePacket).src_bytes : ℚ) /
      ((max (flowAfter sampleExtractor samplePacket).dst_bytes 1 : Nat) : ℚ)
      = 100 := by
  refine ⟨rfl, rfl, rfl, ?_⟩
  norm_num [flowAfter, sampleExtractor, mkExtractor, samplePacket,
    getOrCreateFlow, createFlowKey, dictGet, updateFlowState, initFlow]

/-- C5 amended: `bytes_ratio` is `src_bytes / max(dst_bytes, 1)` only when
`dst_bytes > 0`, and 0.0 when `dst_bytes = 0`; `packets_per_second` is
`total_packets / max(flow_duration, 0.001)` for the packet's flow state after
the update, as claimed. -/
theorem c5_ratio_and_rate (rt : Runtime) (now : ℚ) (st : Extractor)
    (p : PacketInfo) :
    (extractFeatures rt now st p).2.bytes_ratio =
      (if (flowAfter st p).dst_bytes > 0
       then ((flowAfter st p).src_bytes : ℚ) /
         ((max (flowAfter st p).dst_bytes 1 : Nat) : ℚ)
       else 0) ∧
    (extractFeatures rt now st p).2.packets_per_second =
      (((flowAfter st p).src_packets + (flowAfter st p).dst_packets : Nat) : ℚ) /
        max (p.timestamp - (flowAfter st p).start_time) (1/1000) := by
  exact ⟨rfl, rfl⟩

/-! ## C8: parse behaviour on missing or unsupported layers -/

/-- C8 as stated is false: an IPv4 frame whose transport is neither TCP, UDP
nor ICMP is not dropped — `_parse_packet` returns a record with protocol
`"unknown"` and ports 0. -/
theorem c8_counterexample :
    (parsePacket 0 sampleFrameUnknownTransport).isSome = true ∧
    (parsePacket 0 sampleFrameUnknownTransport).map PacketInfo.protocol =
      some "unknown" ∧
    (parsePacket 0 sampleFrameUnknownTransport).map PacketInfo.src_port =
      some 0 ∧
    (parsePacket 0 sampleFrameUnknownTransport).map PacketInfo.dst_port =
      some 0 :=
  ⟨rfl, rfl, rfl, rfl⟩

/-- C8 amended: a frame with no IP layer is dropped silently (`none`; parsing
is total, so no exception reaches the caller, and no record is produced); a
frame with an IP layer but unsupported transport is not dropped — a record
with protocol `"unknown"` and both ports 0 is produced. No drop counter
exists in the parser. -/
theorem c8_parse_drops (now : ℚ) (f : RawFrame) :
    (f.ip = none → f.ipv6 = none → parsePacket now f = none) ∧
    (f.ip.isSome = true → f.tcp = none → f.udp = none → f.icmp = false →
      ∃ r, parsePacket now f = some r ∧ r.protocol = "unknown" ∧
        r.src_port = 0 ∧ r.dst_port = 0) := by
  constructor
  · intro h4 h6
    rw [parsePacket, h4, h6]
  · intro h4 ht hu hi
    obtain ⟨v4, hv4⟩ := Option.isSome_iff_exists.mp h4
    rw [parsePacket, hv4, ht, hu, hi]
    exact ⟨_, rfl, rfl, rfl, rfl⟩

/-- Witness for C8 on the two concrete frames. -/
theorem c8_parse_drops_witness :
    parsePacket 0 sampleFrameNoIP = none ∧
    ∃ r, parsePacket 0 sampleFrameUnknownTransport = some r ∧
      r.protocol = "unknown" ∧ r.src_port = 0 ∧ r.dst_port = 0 :=
  ⟨(c8_parse_drops 0 sampleFrameNoIP).1 rfl rfl,
   (c8_parse_drops 0 sampleFrameUnknownTransport).2 rfl rfl rfl rfl⟩

end NIDS

namespace NIDS

/-! ## C2: sliding-window bounds for the flow-state update -/

theorem timestampDiffs_length : ∀ l : List ℚ, (timestampDiffs l).length = l.length - 1
  | [] => rfl
  | [_] => rfl
  | a :: b :: rest => by
    simp [timestampDiffs, timestampDiffs_length (b :: rest)]

theorem timestampDiffs_append :
    ∀ (l : List ℚ) (x q : ℚ), l.getLast? = some q →
      timestampDiffs (l ++ [x]) = timestampDiffs l ++ [x - q]
  | [], x, q, h => by simp at h
  | [a], x, q, h => by
    simp only [List.getLast?_singleton, Option.some.injEq] at h
    subst h
    rfl
  | a :: b :: rest, x, q, h => by
    rw [List.getLast?_cons_cons] at h
    have ih := timestampDiffs_append (b :: rest) x q h
    show timestampDiffs (a :: ((b :: rest) ++ [x])) = _
    rw [List.cons_append, timestampDiffs, ← List.cons_append, ih, timestampDiffs]
    rfl

/-- The three window buffers after one `_update_flow_state` call, written in
terms of what the call appends and truncates. -/
theorem updateFlowState_windows (ws : Nat) (fl : FlowState) (p : PacketInfo) :
    (updateFlowState ws fl p).recent_packets =
      (if fl.recent_packets.length + 1 > ws
       then (fl.recent_packets ++ [p]).drop 1 else fl.recent_packets ++ [p]) ∧
    (updateFlowState ws fl p).packet_sizes =
      (if fl.recent_packets.length + 1 > ws
       then pySliceLast ws (fl.packet_sizes ++ [p.packet_size])
       else fl.packet_sizes ++ [p.packet_size]) ∧
    (updateFlowState ws fl p).inter_arrival_times =
      (let iats2 :=
        match fl.recent_packets.getLast? with
        | some lastP =>
          fl.inter_arrival_times ++ [p.timestamp - lastP.timestamp]
        | none => fl.inter_arrival_times
       if fl.recent_packets.length + 1 > ws then pySliceLast ws iats2 else iats2) := by
  unfold updateFlowState
  rcases htf : p.tcp_flags with _ | tfv <;>
    rcases hL : fl.recent_packets.getLast? with _ | q <;>
      by_cases hdir : p.src_ip = fl.flow_key.src_ip ∧ p.src_port = fl.flow_key.src_port <;>
        simp [htf, hL, hdir, List.length_append] <;>
          refine ⟨?_, ?_, ?_⟩ <;> split <;> rfl

/-- One update preserves the window characterization: if the three buffers
hold exactly the Python slices of the processed history, they still do after
processing one more packet. -/
theorem updateFlowState_invariant_step (ws : Nat) (hws : 1 ≤ ws)
    (fl : FlowState) (ps : List PacketInfo) (p : PacketInfo)
    (h1 : fl.recent_packets = pySliceLast ws ps)
    (h2 : fl.packet_sizes = pySliceLast ws (ps.map PacketInfo.packet_size))
    (h3 : fl.inter_arrival_times =
      pySliceLast ws (timestampDiffs (ps.map PacketInfo.timestamp))) :
    (updateFlowState ws fl p).recent_packets = pySliceLast ws (ps ++ [p]) ∧
    (updateFlowState ws fl p).packet_sizes =
      pySliceLast ws ((ps ++ [p]).map PacketInfo.packet_size) ∧
    (updateFlowState ws fl p).inter_arrival_times =
      pySliceLast ws (timestampDiffs ((ps ++ [p]).map PacketInfo.timestamp)) := by
  obtain ⟨w1, w2, w3⟩ := updateFlowState_windows ws fl p
  rw [h1] at w1 w2 w3
  rw [h2] at w2
  rw [h3] at w3
  have hlen : (pySliceLast ws ps).length = min ws ps.length :=
    pySliceLast_length hws ps
  rw [hlen] at w1 w2 w3
  by_cases hge : ws ≤ ps.length
  · have hcond : min ws ps.length + 1 > ws := by omega
    rw [if_pos hcond] at w1 w2 w3
    have hps_ne : ps ≠ [] := by
      intro hcon
      rw [hcon] at hge
      simp at hge
      omega
    obtain ⟨q, hq⟩ := Option.isSome_iff_exists.mp (List.getLast?_isSome.mpr hps_ne)
    refine ⟨?_, ?_, ?_⟩
    · rw [w1, pySliceLast_append_singleton_of_length_le hws hge]
    · rw [w2, List.map_append, List.map_singleton,
        pySliceLast_pySliceLast_append_singleton hws]
    · rw [getLast?_pySliceLast hws ps hps_ne, hq] at w3
      rw [w3, pySliceLast_pySliceLast_append_singleton hws]
      have hmap : (ps.map PacketInfo.timestamp).getLast? = some q.timestamp := by
        rw [List.getLast?_map, hq]
        rfl
      rw [List.map_append, List.map_singleton,
        timestampDiffs_append (ps.map PacketInfo.timestamp) p.timestamp q.timestamp hmap]
  · have hlt : ps.length < ws := by omega
    have hcond : ¬ (min ws ps.length + 1 > ws) := by omega
    rw [if_neg hcond] at w1 w2 w3
    have hself1 : pySliceLast ws ps = ps := pySliceLast_eq_self (by omega)
    have hself2 : pySliceLast ws (ps.map PacketInfo.packet_size) =
        ps.map PacketInfo.packet_size :=
      pySliceLast_eq_self (by rw [List.length_map]; omega)
    have hdifflen : (timestampDiffs (ps.map PacketInfo.timestamp)).length =
        ps.length - 1 := by
      rw [timestampDiffs_length, List.length_map]
    have hself3 : pySliceLast ws (timestampDiffs (ps.map PacketInfo.timestamp)) =
        timestampDiffs (ps.map PacketInfo.timestamp) :=
      pySliceLast_eq_self (by omega)
    refine ⟨?_, ?_, ?_⟩
    · rw [w1, hself1, pySliceLast_eq_self]
      rw [List.length_append]
      simp only [List.length_cons, List.length_nil]
      omega
    · rw [w2, hself2, List.map_append, List.map_singleton, pySliceLast_eq_self]
      rw [List.length_append, List.length_map]
      simp only [List.length_cons, List.length_nil]
      omega
    · by_cases hps : ps = []
      · subst hps
        rw [hself1] at w3
        rw [w3]
        rfl
      · obtain ⟨q, hq⟩ :=
          Option.isSome_iff_exists.mp (List.getLast?_isSome.mpr hps)
        rw [hself1, hq] at w3
        rw [w3, hself3]
        have hmap : (ps.map PacketInfo.timestamp).getLast? = some q.timestamp := by
          rw [List.getLast?_map, hq]
          rfl
        rw [List.map_append, List.map_singleton,
          timestampDiffs_append (ps.map PacketInfo.timestamp) p.timestamp q.timestamp hmap]
        rw [pySliceLast_eq_self]
        rw [List.length_append, timestampDiffs_length, List.length_map]
        simp only [List.length_cons, List.length_nil]
        omega

/-- Folding the update over any packet sequence keeps the three window
buffers equal to the Python slices of the processed history. -/
theorem foldl_updateFlowState_windows (ws : Nat) (hws : 1 ≤ ws) :
    ∀ (pkts : List PacketInfo) (fl : FlowState) (ps : List PacketInfo),
      fl.recent_packets = pySliceLast ws ps →
      fl.packet_sizes = pySliceLast ws (ps.map PacketInfo.packet_size) →
      fl.inter_arrival_times =
        pySliceLast ws (timestampDiffs (ps.map PacketInfo.timestamp)) →
      (pkts.foldl (updateFlowState ws) fl).recent_packets =
        pySliceLast ws (ps ++ pkts) ∧
      (pkts.foldl (updateFlowState ws) fl).packet_sizes =
        pySliceLast ws ((ps ++ pkts).map PacketInfo.packet_size) ∧
      (pkts.foldl (updateFlowState ws) fl).inter_arrival_times =
        pySliceLast ws (timestampDiffs ((ps ++ pkts).map PacketInfo.timestamp))
  | [], fl, ps, h1, h2, h3 => by
    simpa using ⟨h1, h2, h3⟩
  | p :: rest, fl, ps, h1, h2, h3 => by
    obtain ⟨s1, s2, s3⟩ := updateFlowState_invariant_step ws hws fl ps p h1 h2 h3
    have ih := foldl_updateFlowState_windows ws hws rest
      (updateFlowState ws fl p) (ps ++ [p]) s1 s2 s3
    simpa [List.append_assoc] using ih

/-- C2: starting from a fresh flow, after any sequence of `_update_flow_state`
calls (any window_size ≥ 1) the packet-size window and the inter-arrival-time
window each hold at most `window_size` entries, and each equals the suffix of
the corresponding full history — the oldest entries are evicted first. -/
theorem c2_window_bounded (ws : Nat) (hws : 1 ≤ ws) (k : FlowKey) (t : ℚ)
    (pkts : List PacketInfo) :
    ((pkts.foldl (updateFlowState ws) (initFlow k t)).packet_sizes).length ≤ ws ∧
    ((pkts.foldl (updateFlowState ws) (initFlow k t)).inter_arrival_times).length ≤ ws ∧
    (pkts.foldl (updateFlowState ws) (initFlow k t)).packet_sizes =
      pySliceLast ws (pkts.map PacketInfo.packet_size) ∧
    (pkts.foldl (updateFlowState ws) (initFlow k t)).inter_arrival_times =
      pySliceLast ws (timestampDiffs (pkts.map PacketInfo.timestamp)) := by
  have base1 : (initFlow k t).recent_packets = pySliceLast ws [] := by
    rw [pySliceLast_eq_self]
    · rfl
    · simp
  have base2 : (initFlow k t).packet_sizes =
      pySliceLast ws (([] : List PacketInfo).map PacketInfo.packet_size) := by
    rw [pySliceLast_eq_self]
    · rfl
    · simp
  have base3 : (initFlow k t).inter_arrival_times =
      pySliceLast ws (timestampDiffs (([] : List PacketInfo).map PacketInfo.timestamp)) := by
    rw [pySliceLast_eq_self]
    · rfl
    · simp [timestampDiffs]
  obtain ⟨f1, f2, f3⟩ :=
    foldl_updateFlowState_windows ws hws pkts (initFlow k t) [] base1 base2 base3
  simp only [List.nil_append] at f1 f2 f3
  exact ⟨f2 ▸ pySliceLast_length_le hws _, f3 ▸ pySliceLast_length_le hws _, f2, f3⟩

/-- Witness for C2 with window size 2 and three concrete packets. -/
theorem c2_window_bounded_witness :
    (([samplePacket, samplePacket2, samplePacket3].foldl (updateFlowState 2)
        (initFlow sampleKey 0)).packet_sizes).length ≤ 2 ∧
    (([samplePacket, samplePacket2, samplePacket3].foldl (updateFlowState 2)
        (initFlow sampleKey 0)).inter_arrival_times).length ≤ 2 ∧
    ([samplePacket, samplePacket2, samplePacket3].foldl (updateFlowState 2)
        (initFlow sampleKey 0)).packet_sizes =
      pySliceLast 2 ([samplePacket, samplePacket2, samplePacket3].map
        PacketInfo.packet_size) ∧
    ([samplePacket, samplePacket2, samplePacket3].foldl (updateFlowState 2)
        (initFlow sampleKey 0)).inter_arrival_times =
      pySliceLast 2 (timestampDiffs ([samplePacket, samplePacket2,
        samplePacket3].map PacketInfo.timestamp)) :=
  c2_window_bounded 2 (by norm_num) sampleKey 0
    [samplePacket, samplePacket2, samplePacket3]

end NIDS

namespace NIDS

/-! ## C10: the flow table is unidirectional by construction -/

theorem updateFlowState_flow_key (ws : Nat) (fl : FlowState) (p : PacketInfo) :
    (updateFlowState ws fl p).flow_key = fl.flow_key := by
  unfold updateFlowState
  rcases htf : p.tcp_flags with _ | tfv <;>
    rcases hL : fl.recent_packets.getLast? with _ | q <;>
      by_cases hdir : p.src_ip = fl.flow_key.src_ip ∧ p.src_port = fl.flow_key.src_port <;>
        simp [htf, hL, hdir] <;> split <;> rfl

theorem updateFlowState_dst_of_src_match (ws : Nat) (fl : FlowState) (p : PacketInfo)
    (hdir : p.src_ip = fl.flow_key.src_ip ∧ p.src_port = fl.flow_key.src_port) :
    (updateFlowState ws fl p).dst_packets = fl.dst_packets ∧
    (updateFlowState ws fl p).dst_bytes = fl.dst_bytes := by
  unfold updateFlowState
  rcases htf : p.tcp_flags with _ | tfv <;>
    rcases hL : fl.recent_packets.getLast? with _ | q <;>
      simp [htf, hL, hdir] <;> refine ⟨?_, ?_⟩ <;> split <;> rfl

theorem getOrCreateFlow_inv (st : Extractor) (p : PacketInfo)
    (hinv : ∀ kv ∈ st.flows,
      kv.2.flow_key = kv.1 ∧ kv.2.dst_packets = 0 ∧ kv.2.dst_bytes = 0) :
    ((getOrCreateFlow st p).2.flow_key = createFlowKey p ∧
      (getOrCreateFlow st p).2.dst_packets = 0 ∧
      (getOrCreateFlow st p).2.dst_bytes = 0) ∧
    (∀ kv ∈ (getOrCreateFlow st p).1.flows,
      kv.2.flow_key = kv.1 ∧ kv.2.dst_packets = 0 ∧ kv.2.dst_bytes = 0) := by
  rcases hdg : dictGet (createFlowKey p) st.flows with _ | fl
  · constructor
    · simp only [getOrCreateFlow, hdg]
      exact ⟨rfl, rfl, rfl⟩
    · intro kv hkv
      simp only [getOrCreateFlow, hdg] at hkv
      rcases mem_dictSet hkv with h | h
      · subst h
        exact ⟨rfl, rfl, rfl⟩
      · exact hinv kv h
  · have hmem := mem_of_dictGet_eq_some hdg
    have hfl := hinv _ hmem
    constructor
    · simp only [getOrCreateFlow, hdg]
      exact hfl
    · intro kv hkv
      simp only [getOrCreateFlow, hdg] at hkv
      exact hinv kv hkv

theorem cleanupExpiredFlows_inv (now : ℚ) (st : Extractor)
    (P : FlowKey × FlowState → Prop) (h : ∀ kv ∈ st.flows, P kv) :
    ∀ kv ∈ (cleanupExpiredFlows now st).flows, P kv := by
  intro kv hkv
  rw [cleanupExpiredFlows] at hkv
  split at hkv
  · exact h kv hkv
  · exact h kv (List.mem_filter.mp hkv).1

theorem extractFeatures_inv (rt : Runtime) (now : ℚ) (st : Extractor)
    (p : PacketInfo)
    (hinv : ∀ kv ∈ st.flows,
      kv.2.flow_key = kv.1 ∧ kv.2.dst_packets = 0 ∧ kv.2.dst_bytes = 0) :
    (∀ kv ∈ (extractFeatures rt now st p).1.flows,
      kv.2.flow_key = kv.1 ∧ kv.2.dst_packets = 0 ∧ kv.2.dst_bytes = 0) ∧
    (extractFeatures rt now st p).2.direction = 0 ∧
    (extractFeatures rt now st p).2.bytes_ratio = 0 := by
  obtain ⟨⟨hk0, hd0, hb0⟩, hinv1⟩ := getOrCreateFlow_inv st p hinv
  have hdir : p.src_ip = (getOrCreateFlow st p).2.flow_key.src_ip ∧
      p.src_port = (getOrCreateFlow st p).2.flow_key.src_port := by
    rw [hk0]
    exact ⟨rfl, rfl⟩
  have hkey := updateFlowState_flow_key (getOrCreateFlow st p).1.window_size
    (getOrCreateFlow st p).2 p
  obtain ⟨hdp, hdb⟩ := updateFlowState_dst_of_src_match
    (getOrCreateFlow st p).1.window_size (getOrCreateFlow st p).2 p hdir
  refine ⟨?_, ?_, ?_⟩
  · show ∀ kv ∈ (cleanupExpiredFlows now _).flows, _
    refine cleanupExpiredFlows_inv now _ _ ?_
    intro kv hkv
    rcases mem_dictSet hkv with h | h
    · subst h
      refine ⟨?_, ?_, ?_⟩
      · show (updateFlowState _ _ _).flow_key = createFlowKey p
        rw [hkey, hk0]
      · show (updateFlowState _ _ _).dst_packets = 0
        rw [hdp, hd0]
      · show (updateFlowState _ _ _).dst_bytes = 0
        rw [hdb, hb0]
    · exact hinv1 kv h
  · show (if p.src_ip = (updateFlowState _ _ _).flow_key.src_ip ∧
        p.src_port = (updateFlowState _ _ _).flow_key.src_port then 0 else 1) = 0
    rw [if_pos]
    rw [hkey]
    exact hdir
  · show (if (updateFlowState _ _ _).dst_bytes > 0 then _ else 0) = 0
    rw [if_neg]
    rw [hdb, hb0]
    omega

theorem processAll_inv (rt : Runtime) :
    ∀ (inputs : List (ℚ × PacketInfo)) (st : Extractor),
      (∀ kv ∈ st.flows,
        kv.2.flow_key = kv.1 ∧ kv.2.dst_packets = 0 ∧ kv.2.dst_bytes = 0) →
      (∀ kv ∈ (processAll rt st inputs).1.flows,
        kv.2.flow_key = kv.1 ∧ kv.2.dst_packets = 0 ∧ kv.2.dst_bytes = 0) ∧
      (∀ fv ∈ (processAll rt st inputs).2,
        fv.direction = 0 ∧ fv.bytes_ratio = 0)
  | [], st, h => ⟨h, by simp [processAll]⟩
  | (now, p) :: rest, st, h => by
    obtain ⟨hinv2, hdir, hratio⟩ := extractFeatures_inv rt now st p h
    obtain ⟨ih1, ih2⟩ :=
      processAll_inv rt rest (extractFeatures rt now st p).1 hinv2
    refine ⟨?_, ?_⟩
    · intro kv hkv
      exact ih1 kv hkv
    · intro fv hfv
      rcases List.mem_cons.mp hfv with heq | hmem
      · subst heq
        exact ⟨hdir, hratio⟩
      · exact ih2 fv hmem

/-- C10: because the flow table keys each packet by that packet's own
5-tuple, every packet matches its flow's original source tuple: starting
from a fresh extractor, every stored FlowState keeps `dst_packets = 0` and
`dst_bytes = 0`, every produced FeatureVector has `direction = 0`, and every
extracted `bytes_ratio` equals 0.0. -/
theorem c10_unidirectional_flows (rt : Runtime) (ws : Nat)
    (ov sto : ℚ) (mpb : Nat) (lc : ℚ) (inputs : List (ℚ × PacketInfo)) :
    (∀ kv ∈ (processAll rt (mkExtractor ws ov sto mpb lc) inputs).1.flows,
      kv.2.dst_packets = 0 ∧ kv.2.dst_bytes = 0) ∧
    (∀ fv ∈ (processAll rt (mkExtractor ws ov sto mpb lc) inputs).2,
      fv.direction = 0 ∧ fv.bytes_ratio = 0) := by
  have hbase : ∀ kv ∈ (mkExtractor ws ov sto mpb lc).flows,
      kv.2.flow_key = kv.1 ∧ kv.2.dst_packets = 0 ∧ kv.2.dst_bytes = 0 := by
    intro kv hkv
    simp [mkExtractor] at hkv
  obtain ⟨h1, h2⟩ := processAll_inv rt inputs (mkExtractor ws ov sto mpb lc) hbase
  exact ⟨fun kv hkv => ⟨(h1 kv hkv).2.1, (h1 kv hkv).2.2⟩, h2⟩

/-- Witness for C10 on a concrete one-packet run. -/
theorem c10_unidirectional_flows_witness :
    (extractFeatures runtime0 0 sampleExtractor samplePacket).2.direction = 0 ∧
    (extractFeatures runtime0 0 sampleExtractor samplePacket).2.bytes_ratio = 0 := by
  have h := (c10_unidirectional_flows runtime0 2 (1/2) 300 1500 0
    [(0, samplePacket)]).2
  exact h (extractFeatures runtime0 0 sampleExtractor samplePacket).2
    (List.mem_singleton.mpr rfl)

end NIDS

namespace NIDS

/-! ## C6: the synthesized per-class probability map -/

theorem chosenAttackClass_cases (s : SimpleModelAdapter) (fv : FeatureVector) :
    chosenAttackClass s fv = "Reconnaissance" ∨ chosenAttackClass s fv = "DoS" ∨
    chosenAttackClass s fv = "Exploits" ∨ chosenAttackClass s fv = "Fuzzers" := by
  unfold chosenAttackClass
  split_ifs <;> simp

theorem classProbs_sum (c : String) (p : ℚ)
    (hc : c = "Reconnaissance" ∨ c = "DoS" ∨ c = "Exploits" ∨ c = "Fuzzers") :
    ((classProbs c p).map Prod.snd).sum = 3/20 + max (3/5) p + (1 - p) := by
  rcases hc with h | h | h | h <;> subst h <;>
    simp [classProbs, classNames, dictSet] <;> ring

theorem classProbs_get_chosen (c : String) (p : ℚ)
    (hc : c = "Reconnaissance" ∨ c = "DoS" ∨ c = "Exploits" ∨ c = "Fuzzers") :
    dictGet c (classProbs c p) = some (max (3/5) p) := by
  rcases hc with h | h | h | h <;> subst h <;>
    simp [classProbs, classNames, dictSet, dictGet]

theorem classProbs_entries_le (c : String) (p : ℚ)
    (hc : c = "Reconnaissance" ∨ c = "DoS" ∨ c = "Exploits" ∨ c = "Fuzzers")
    (hp : 2/5 ≤ p) :
    ∀ kv ∈ classProbs c p, kv.2 ≤ max (3/5) p := by
  have h1 : (1 : ℚ) - p ≤ max (3/5) p :=
    le_trans (by linarith) (le_max_left _ _)
  have h2 : (1/20 : ℚ) ≤ max (3/5) p :=
    le_trans (by norm_num) (le_max_left _ _)
  rcases hc with h | h | h | h <;> subst h <;> intro kv hkv <;>
    simp [classProbs, classNames, dictSet] at hkv <;>
      rcases hkv with h | h | h | h | h <;> subst h <;>
        first
          | exact le_refl _
          | exact h1
          | exact le_trans (by norm_num) (le_max_left (3/5 : ℚ) p)

/-- C6 amended: for every prediction the heuristic engine classifies as an
attack, the synthesized per-class map sums to
`0.15 + max(0.6, p) + (1 − p)` — always in [1.15, 1.75], never ≈ 1 — and the
chosen attack_class entry is `max(0.6, p)`, which is the maximum entry
whenever `p ≥ 0.4` (in particular at the default threshold 0.5). -/
theorem c6_class_probability_map (rt : Runtime) (s : SimpleModelAdapter)
    (fv : FeatureVector) (h : (predict rt s fv).2.is_attack = true) :
    ∃ m, (predict rt s fv).2.class_probabilities = some m ∧
      (predict rt s fv).2.attack_class = some (chosenAttackClass s fv) ∧
      (m.map Prod.snd).sum =
        3/20 + max (3/5) (predict rt s fv).2.attack_probability +
          (1 - (predict rt s fv).2.attack_probability) ∧
      23/20 ≤ (m.map Prod.snd).sum ∧ (m.map Prod.snd).sum ≤ 7/4 ∧
      dictGet (chosenAttackClass s fv) m =
        some (max (3/5) (predict rt s fv).2.attack_probability) ∧
      (2/5 ≤ (predict rt s fv).2.attack_probability →
        ∀ kv ∈ m, kv.2 ≤ max (3/5) (predict rt s fv).2.attack_probability) := by
  have hb : decide (predictProb rt s fv > s.binary_threshold) = true := h
  have hcp : (predict rt s fv).2.class_probabilities =
      some (classProbs (chosenAttackClass s fv) (predictProb rt s fv)) := by
    simp only [predict, hb, if_true]
  have hac : (predict rt s fv).2.attack_class =
      some (chosenAttackClass s fv) := by
    simp only [predict, hb, if_true]
  have hap : (predict rt s fv).2.attack_probability = predictProb rt s fv := rfl
  have hcases := chosenAttackClass_cases s fv
  have hq0 : 0 ≤ predictProb rt s fv := le_max_left 0 _
  refine ⟨classProbs (chosenAttackClass s fv) (predictProb rt s fv),
    hcp, hac, ?_, ?_, ?_, ?_, ?_⟩
  · rw [hap, classProbs_sum _ _ hcases]
  · rw [classProbs_sum _ _ hcases]
    have := le_max_right (3/5 : ℚ) (predictProb rt s fv)
    linarith
  · rw [classProbs_sum _ _ hcases]
    rcases le_total (3/5 : ℚ) (predictProb rt s fv) with hle | hle
    · rw [max_eq_right hle]
      linarith
    · rw [max_eq_left hle]
      linarith
  · rw [hap, classProbs_get_chosen _ _ hcases]
  · rw [hap]
    intro hp
    exact classProbs_entries_le _ _ hcases hp

attribute [local semireducible] Rat.add Rat.mul Rat.inv Rat.sub in
/-- Witness for C6 at the default threshold on a high-entropy input that is
classified as an attack. -/
theorem c6_class_probability_map_witness :
    ∃ m, (predict runtime0 initAdapter sampleFVhighEntropy).2.class_probabilities
        = some m ∧
      (predict runtime0 initAdapter sampleFVhighEntropy).2.attack_class =
        some (chosenAttackClass initAdapter sampleFVhighEntropy) ∧
      (m.map Prod.snd).sum =
        3/20 + max (3/5)
          (predict runtime0 initAdapter sampleFVhighEntropy).2.attack_probability +
          (1 - (predict runtime0 initAdapter sampleFVhighEntropy).2.attack_probability) ∧
      23/20 ≤ (m.map Prod.snd).sum ∧ (m.map Prod.snd).sum ≤ 7/4 ∧
      dictGet (chosenAttackClass initAdapter sampleFVhighEntropy) m =
        some (max (3/5)
          (predict runtime0 initAdapter sampleFVhighEntropy).2.attack_probability) ∧
      (2/5 ≤ (predict runtime0 initAdapter sampleFVhighEntropy).2.attack_probability →
        ∀ kv ∈ m, kv.2 ≤ max (3/5)
          (predict runtime0 initAdapter sampleFVhighEntropy).2.attack_probability) :=
  c6_class_probability_map runtime0 initAdapter sampleFVhighEntropy (by decide)

attribute [local semireducible] Rat.add Rat.mul Rat.inv Rat.sub in
/-- C6 as stated is false: with the threshold legitimately lowered to 0.2 via
`set_threshold`, an attack prediction with probability 0.3 yields a map that
sums to 1.45 (not ≈ 1) and whose maximum entry is `Normal` (0.7), not the
chosen class `Fuzzers` (0.6). -/
theorem c6_counterexample :
    (predict runtime0 (setThreshold initAdapter (1/5)) sampleFV).2.is_attack
      = true ∧
    (predict runtime0 (setThreshold initAdapter (1/5)) sampleFV).2.attack_probability
      = 3/10 ∧
    (predict runtime0 (setThreshold initAdapter (1/5)) sampleFV).2.attack_class
      = some "Fuzzers" ∧
    (predict runtime0 (setThreshold initAdapter (1/5)) sampleFV).2.class_probabilities
      = some [("Normal", 7/10), ("DoS", 1/20), ("Exploits", 1/20),
              ("Fuzzers", 3/5), ("Reconnaissance", 1/20)] ∧
    (([("Normal", (7/10 : ℚ)), ("DoS", 1/20), ("Exploits", 1/20),
       ("Fuzzers", 3/5), ("Reconnaissance", 1/20)].map Prod.snd).sum = 29/20) ∧
    ((7/10 : ℚ) > 3/5) := by
  refine ⟨by decide, by decide, by decide, by decide, by norm_num, by norm_num⟩

end NIDS

namespace NIDS

/-! ## C3: alert cooldown deduplication -/

/-- C3: from a state where the cooldown key is untracked, a qualifying
prediction alerts; a second qualifying prediction with the same key within
cooldown_seconds is suppressed; a third after cooldown_seconds has elapsed
since the produced alert yields a second Alert. -/
theorem c3_alert_cooldown (rt : Runtime) (m : AlertManager)
    (t1 t2 t3 : ℚ) (u1 u2 u3 : String) (p1 p2 p3 : ModelPrediction)
    (ha1 : p1.is_attack = true) (ha2 : p2.is_attack = true)
    (ha3 : p3.is_attack = true)
    (hc1 : m.min_confidence ≤ p1.attack_probability)
    (hc2 : m.min_confidence ≤ p2.attack_probability)
    (hc3 : m.min_confidence ≤ p3.attack_probability)
    (hk2 : createAlertKey p2 = createAlertKey p1)
    (hk3 : createAlertKey p3 = createAlertKey p1)
    (hfresh : dictGet (createAlertKey p1) m.recent_alerts = none)
    (hwithin : t2 - t1 < m.cooldown_seconds)
    (hafter : ¬ (t3 - t1 < m.cooldown_seconds)) :
    ((generateAlert rt t1 u1 p1 m).2).isSome = true ∧
    (generateAlert rt t2 u2 p2 (generateAlert rt t1 u1 p1 m).1).2 = none ∧
    ((generateAlert rt t3 u3 p3
        (generateAlert rt t2 u2 p2 (generateAlert rt t1 u1 p1 m).1).1).2).isSome
      = true := by
  have hnc1 : ¬ (p1.attack_probability < m.min_confidence) := not_lt.mpr hc1
  have hs1 : shouldAlert t1 p1 m =
      (true,
        { m with
          recent_alerts := dictSet (createAlertKey p1) t1 m.recent_alerts }) := by
    simp only [shouldAlert, if_neg hnc1, hfresh]
  have hf1 : (generateAlert rt t1 u1 p1 m).1.recent_alerts =
        dictSet (createAlertKey p1) t1 m.recent_alerts ∧
      (generateAlert rt t1 u1 p1 m).1.min_confidence = m.min_confidence ∧
      (generateAlert rt t1 u1 p1 m).1.cooldown_seconds = m.cooldown_seconds ∧
      ((generateAlert rt t1 u1 p1 m).2).isSome = true := by
    rw [generateAlert, ha1, if_pos rfl, hs1]
    exact ⟨rfl, rfl, rfl, rfl⟩
  obtain ⟨hr1, hm1, hcd1, hsome1⟩ := hf1
  have hnc2 : ¬ (p2.attack_probability <
      (generateAlert rt t1 u1 p1 m).1.min_confidence) := by
    rw [hm1]
    exact not_lt.mpr hc2
  have hget2 : dictGet (createAlertKey p2)
      (generateAlert rt t1 u1 p1 m).1.recent_alerts = some t1 := by
    rw [hk2, hr1]
    exact dictGet_dictSet_self _ _ _
  have hcd2 : t2 - t1 < (generateAlert rt t1 u1 p1 m).1.cooldown_seconds := by
    rw [hcd1]
    exact hwithin
  have hs2 : shouldAlert t2 p2 (generateAlert rt t1 u1 p1 m).1 =
      (false, (generateAlert rt t1 u1 p1 m).1) := by
    simp only [shouldAlert, if_neg hnc2, hget2, if_pos hcd2]
  have hg2 : generateAlert rt t2 u2 p2 (generateAlert rt t1 u1 p1 m).1 =
      ((generateAlert rt t1 u1 p1 m).1, none) := by
    rw [generateAlert, ha2, if_pos rfl, hs2]
  have hnc3 : ¬ (p3.attack_probability <
      (generateAlert rt t1 u1 p1 m).1.min_confidence) := by
    rw [hm1]
    exact not_lt.mpr hc3
  have hget3 : dictGet (createAlertKey p3)
      (generateAlert rt t1 u1 p1 m).1.recent_alerts = some t1 := by
    rw [hk3, hr1]
    exact dictGet_dictSet_self _ _ _
  have hcd3 : ¬ (t3 - t1 < (generateAlert rt t1 u1 p1 m).1.cooldown_seconds) := by
    rw [hcd1]
    exact hafter
  have hs3 : shouldAlert t3 p3 (generateAlert rt t1 u1 p1 m).1 =
      (true,
        { (generateAlert rt t1 u1 p1 m).1 with
          recent_alerts := dictSet (createAlertKey p3) t3
            (generateAlert rt t1 u1 p1 m).1.recent_alerts }) := by
    simp only [shouldAlert, if_neg hnc3, hget3, if_neg hcd3]
  refine ⟨hsome1, ?_, ?_⟩
  · rw [hg2]
  · rw [hg2]
    rw [generateAlert, ha3, if_pos rfl, hs3]
    rfl

/-- Witness for C3: DoS predictions with probability 0.8 at times 0, 10 and
40 against the default manager (min_confidence 0.7, cooldown 30). -/
theorem c3_alert_cooldown_witness :
    ((generateAlert runtime0 0 "id1" (mkPrediction 0 (some "DoS") (4/5))
        sampleManager).2).isSome = true ∧
    (generateAlert runtime0 10 "id2" (mkPrediction 10 (some "DoS") (4/5))
        (generateAlert runtime0 0 "id1" (mkPrediction 0 (some "DoS") (4/5))
          sampleManager).1).2 = none ∧
    ((generateAlert runtime0 40 "id3" (mkPrediction 40 (some "DoS") (4/5))
        (generateAlert runtime0 10 "id2" (mkPrediction 10 (some "DoS") (4/5))
          (generateAlert runtime0 0 "id1" (mkPrediction 0 (some "DoS") (4/5))
            sampleManager).1).1).2).isSome = true :=
  c3_alert_cooldown runtime0 sampleManager 0 10 40 "id1" "id2" "id3"
    (mkPrediction 0 (some "DoS") (4/5)) (mkPrediction 10 (some "DoS") (4/5))
    (mkPrediction 40 (some "DoS") (4/5)) rfl rfl rfl
    (by norm_num [sampleManager, mkPrediction])
    (by norm_num [sampleManager, mkPrediction])
    (by norm_num [sampleManager, mkPrediction]) rfl rfl rfl
    (by norm_num [sampleManager]) (by norm_num [sampleManager])

/-! ## C7: persistence and reload order -/

/-- C7 amended: with an empty in-memory buffer, `get_recent_alerts(N)` on a
log of N records returns those same N records converted to the API format in
log order — oldest first, the reverse of the claimed newest-first order —
with `attack_type`, `confidence` and `source_ip` preserved. -/
theorem c7_log_reload (m : AlertManager) (h : m.mem = []) :
    getRecentAlerts m m.log.length = m.log.map formatFromLog ∧
    ∀ r ∈ m.log,
      (formatFromLog r).attack_type = r.attack_type ∧
      (formatFromLog r).confidence = r.confidence ∧
      (formatFromLog r).src_ip = r.source_ip := by
  constructor
  · have h1 : ¬ (m.mem ≠ []) := by simp [h]
    simp only [getRecentAlerts, if_neg h1, gt_iff_lt,
      if_neg (lt_irrefl m.log.length)]
  · intro r hr
    exact ⟨rfl, rfl, rfl⟩

/-- Witness for C7 on the concrete two-alert restarted manager. -/
theorem c7_log_reload_witness :
    getRecentAlerts restartedManager restartedManager.log.length =
      restartedManager.log.map formatFromLog ∧
    ∀ r ∈ restartedManager.log,
      (formatFromLog r).attack_type = r.attack_type ∧
      (formatFromLog r).confidence = r.confidence ∧
      (formatFromLog r).src_ip = r.source_ip :=
  c7_log_reload restartedManager rfl

attribute [local semireducible] Rat.add Rat.mul Rat.inv Rat.sub in
/-- C7 as stated is false: after persisting a DoS alert (t = 0) and then a
Reconnaissance alert (t = 1) and restarting with an empty in-memory buffer,
`get_recent_alerts(2)` returns the two alerts oldest-first
(`["DoS", "Reconnaissance"]`), not newest-first. -/
theorem c7_counterexample :
    ((generateAlert runtime0 0 "id1" (mkPrediction 0 (some "DoS") (4/5))
        sampleManager).2).isSome = true ∧
    ((generateAlert runtime0 1 "id2"
        (mkPrediction 1 (some "Reconnaissance") (4/5))
        (generateAlert runtime0 0 "id1" (mkPrediction 0 (some "DoS") (4/5))
          sampleManager).1).2).isSome = true ∧
    restartedManager.mem = [] ∧
    restartedManager.log.map AlertRecord.timestamp = [0, 1] ∧
    (getRecentAlerts restartedManager 2).map FormattedAlert.attack_type =
      ["DoS", "Reconnaissance"] ∧
    (getRecentAlerts restartedManager 2).map FormattedAlert.attack_type ≠
      ["Reconnaissance", "DoS"] := by
  refine ⟨by decide, by decide, rfl, by decide, by decide, by decide⟩

end NIDS
